import Mathlib

/-
  Verification of the session-orchestration core of the platium-backend
  server (Express + Prisma + Socket.io).  The operations below are shallow
  embeddings of the HTTP/socket handlers in the main server file:
    POST   /api/sessions            -> createSession
    POST   /api/sessions/:id/join   -> joinSession
    DELETE /api/sessions/:id/leave  -> leaveSession
    DELETE /api/sessions/:id        -> endSession
    socket "send_message"           -> sendMessage
    generateSessionCode             -> generateSessionCode
  The persistent store (Prisma tables from the migration SQL) is modelled
  as explicit lists; timestamps are naturals supplied by the caller; the
  random source is a stream of naturals; realtime broadcasts are a list of
  events returned by each operation.  Errors are the exact (HTTP status,
  message) pairs the handlers return, including the 500s produced when a
  Prisma call throws and the surrounding try/catch answers with a generic
  failure message.
-/

namespace Platium

/-- Session status enum from the migration SQL
(starting, active, ending, ended, error). -/
inductive SessionStatus
  | starting
  | active
  | ending
  | ended
  | error
  deriving DecidableEq, Repr

/-- Participant role enum from the migration SQL (player, spectator, moderator). -/
inductive Role
  | player
  | spectator
  | moderator
  deriving DecidableEq, Repr

/-- Chat message type enum from the migration SQL (chat, system, game_event). -/
inductive MessageType
  | chat
  | system
  | game_event
  deriving DecidableEq, Repr

/-- A row of the game_sessions table (the columns the handlers read or write). -/
structure Session where
  id : Nat
  gameId : Nat
  createdBy : Nat
  sessionCode : Option String
  status : SessionStatus
  isPrivate : Bool
  maxPlayers : Nat
  currentPlayers : Nat
  spectatorCount : Nat
  endedAt : Option Nat
  deriving DecidableEq, Repr

/-- A row of the session_participants table; primary key is (sessionId, userId). -/
structure Participant where
  sessionId : Nat
  userId : Nat
  role : Role
  isHost : Bool
  joinedAt : Nat
  leftAt : Option Nat
  totalDurationMinutes : Nat
  deriving DecidableEq, Repr

/-- A row of the session_chat table. -/
structure ChatMessage where
  sessionId : Nat
  userId : Nat
  message : String
  msgType : MessageType
  createdAt : Nat
  deriving DecidableEq, Repr

/-- A row of the session_history table (the analytics snapshot). -/
structure HistoryRow where
  sessionId : Nat
  userId : Nat
  gameId : Nat
  role : Role
  durationMinutes : Nat
  totalPlayers : Nat
  deriving DecidableEq, Repr

/-- The persistent store: the four tables the session handlers touch. -/
structure St where
  sessions : List Session
  participants : List Participant
  chat : List ChatMessage
  history : List HistoryRow
  deriving DecidableEq, Repr

/-- Realtime events emitted through Socket.io / Redis by the handlers. -/
inductive Ev
  | user_joined (userId : Nat) (role : Role)
  | user_left (userId : Nat)
  | session_created (sessionId : Nat)
  | session_ended
  | new_message (sessionId userId : Nat) (message : String)
  deriving DecidableEq, Repr

/-- An HTTP error response: status code and the exact message string the
handler sends. -/
structure ApiErr where
  status : Nat
  message : String
  deriving DecidableEq, Repr

/-- prisma.gameSession.findUnique by id. -/
def findSession (st : St) (sid : Nat) : Option Session :=
  st.sessions.find? (fun s => s.id == sid)

/-- prisma.sessionParticipant.findUnique by the composite key sessionId_userId. -/
def findParticipant (st : St) (sid uid : Nat) : Option Participant :=
  st.participants.find? (fun p => p.sessionId == sid && p.userId == uid)

/-- prisma.gameSession.update by id: apply f to the matching row. -/
def updateSession (st : St) (sid : Nat) (f : Session → Session) : St :=
  { st with sessions := st.sessions.map (fun s => if s.id == sid then f s else s) }

instance {ε α : Type} [DecidableEq ε] [DecidableEq α] : DecidableEq (Except ε α) := fun x y =>
  match x, y with
  | Except.ok a, Except.ok b =>
      if h : a = b then isTrue (h ▸ rfl) else isFalse (fun hc => h (Except.ok.inj hc))
  | Except.error a, Except.error b =>
      if h : a = b then isTrue (h ▸ rfl) else isFalse (fun hc => h (Except.error.inj hc))
  | Except.ok _, Except.error _ => isFalse (fun hc => Except.noConfusion hc)
  | Except.error _, Except.ok _ => isFalse (fun hc => Except.noConfusion hc)

/-- Boolean test for a successful (2xx) handler outcome. -/
def exceptIsOk {ε α : Type} (r : Except ε α) : Bool :=
  match r with
  | Except.ok _ => true
  | Except.error _ => false

/-- The durations column of every participant row, in table order. -/
def durations (st : St) : List Nat :=
  st.participants.map (fun p => p.totalDurationMinutes)

/-- Number of participant rows of a session with role player and left_at null. -/
def playerPresentCount (st : St) (sid : Nat) : Nat :=
  (st.participants.filter (fun p =>
    p.sessionId == sid && p.role == Role.player && p.leftAt == none)).length

/-- The alphabet of generateSessionCode, verbatim from the source. -/
def sessionCodeChars : String := "ABCDEFGHJKMNPQRSTUVWXYZ23456789"

/-- generateSessionCode from the source: six characters, each indexed by
a random draw into the alphabet.  The source draws
Math.floor(Math.random() * chars.length), an arbitrary in-range index;
rand i supplies the i-th raw draw and the modulo maps it into range. -/
def generateSessionCode (rand : Nat → Nat) : String :=
  String.mk ((List.range 6).map (fun i =>
    sessionCodeChars.toList.getD (rand i % sessionCodeChars.toList.length) 'A'))

def errJoinNotFoundOrNotActive : ApiErr := ⟨404, "Session not found or not active"⟩

def errSessionFull : ApiErr := ⟨400, "Session is full"⟩

def errAlreadyInSession : ApiErr := ⟨400, "Already in this session"⟩

def errFailedToJoin : ApiErr := ⟨500, "Failed to join session"⟩

def errFailedToLeave : ApiErr := ⟨500, "Failed to leave session"⟩

def errEndNotFound : ApiErr := ⟨404, "Session not found"⟩

def errOnlyHost : ApiErr := ⟨403, "Only the host can end the session"⟩

def errAlreadyActive : ApiErr := ⟨400, "You already have an active session"⟩

def errFailedToCreate : ApiErr := ⟨500, "Failed to create session"⟩

/-- The participant row the join handler inserts: the requested role,
isHost false, leftAt null, duration at its column default 0. -/
def joinRow (sid uid : Nat) (role : Role) (t : Nat) : Participant :=
  { sessionId := sid, userId := uid, role := role, isHost := false,
    joinedAt := t, leftAt := none, totalDurationMinutes := 0 }

/-- POST /api/sessions/:id/join.  In handler order: a single combined 404
when the session is absent or its status is not ACTIVE; 400 "Session is
full" when currentPlayers >= maxPlayers and role is PLAYER; then the
composite-key lookup: a row with leftAt null answers 400 "Already in this
session", while a row with leftAt set falls through to a plain
sessionParticipant.create, which violates the (sessionId, userId) primary
key, is caught, and answers 500; with no row the create succeeds with
leftAt null and isHost false, and user_joined is broadcast.  The handler
never updates currentPlayers or spectatorCount. -/
def joinSession (st : St) (sid uid : Nat) (role : Role) (t : Nat) :
    St × Except ApiErr (List Ev) :=
  match findSession st sid with
  | none => (st, Except.error errJoinNotFoundOrNotActive)
  | some sess =>
    if sess.status ≠ SessionStatus.active then
      (st, Except.error errJoinNotFoundOrNotActive)
    else if sess.maxPlayers ≤ sess.currentPlayers ∧ role = Role.player then
      (st, Except.error errSessionFull)
    else
      match findParticipant st sid uid with
      | some p =>
        if p.leftAt = none then
          (st, Except.error errAlreadyInSession)
        else
          (st, Except.error errFailedToJoin)
      | none =>
        ({ st with participants := st.participants ++ [joinRow sid uid role t] },
         Except.ok [Ev.user_joined uid role])

/-- DELETE /api/sessions/:id/leave.  The handler runs a bare
sessionParticipant.update on the composite key setting leftAt: if no row
exists the update throws and the catch answers 500 "Failed to leave
session"; if a row exists — present or already left — leftAt is set to now
and user_left is broadcast.  No counter is decremented and no duration is
accumulated. -/
def leaveSession (st : St) (sid uid t : Nat) : St × Except ApiErr (List Ev) :=
  match findParticipant st sid uid with
  | none => (st, Except.error errFailedToLeave)
  | some _ =>
    ({ st with participants := st.participants.map (fun p =>
        if p.sessionId == sid && p.userId == uid then { p with leftAt := some t } else p) },
     Except.ok [Ev.user_left uid])

/-- First store write of DELETE /api/sessions/:id: set status ENDING and endedAt. -/
def endSessionMarkEnding (st : St) (sid t : Nat) : St :=
  updateSession st sid (fun s => { s with status := SessionStatus.ending, endedAt := some t })

/-- Second store write of DELETE /api/sessions/:id: updateMany setting leftAt
on every participant row of the session with leftAt null.  Durations are not
touched. -/
def endSessionFinalizeParticipants (st : St) (sid t : Nat) : St :=
  { st with participants := st.participants.map (fun p =>
      if p.sessionId == sid && p.leftAt == none then { p with leftAt := some t } else p) }

/-- Third store write of DELETE /api/sessions/:id: set status ENDED. -/
def endSessionMarkEnded (st : St) (sid : Nat) : St :=
  updateSession st sid (fun s => { s with status := SessionStatus.ended })

/-- DELETE /api/sessions/:id.  404 when the session is absent; 403 unless
the requester is the creator; otherwise the three store writes run in
sequence — mark ENDING with endedAt, set leftAt on present participants,
mark ENDED — and session_ended is broadcast.  The handler checks no status,
accumulates no durations, and writes no session_history row. -/
def endSession (st : St) (sid uid t : Nat) : St × Except ApiErr (List Ev) :=
  match findSession st sid with
  | none => (st, Except.error errEndNotFound)
  | some sess =>
    if sess.createdBy ≠ uid then
      (st, Except.error errOnlyHost)
    else
      (endSessionMarkEnded
        (endSessionFinalizeParticipants (endSessionMarkEnding st sid t) sid t) sid,
       Except.ok [Ev.session_ended])

/-- Request options of POST /api/sessions (the body fields the model needs),
with the handler's defaults. -/
structure CreateOpts where
  maxPlayers : Nat := 1
  isPrivate : Bool := false
  deriving Repr

/-- Guard of POST /api/sessions: the creator already owns a session in
status STARTING or ACTIVE. -/
def hasOwnedActive (st : St) (uid : Nat) : Bool :=
  st.sessions.any (fun s => s.createdBy == uid &&
    (s.status == SessionStatus.starting || s.status == SessionStatus.active))

/-- The unique index game_sessions_session_code_key: some session already
holds this code. -/
def sessionCodeTaken (st : St) (code : String) : Bool :=
  st.sessions.any (fun s => s.sessionCode == some code)

/-- The session row the create handler inserts: STARTING status, the
counters at their column defaults (0). -/
def newSessionRow (gid uid : Nat) (code : String) (opts : CreateOpts) (newSid : Nat) : Session :=
  { id := newSid, gameId := gid, createdBy := uid, sessionCode := some code,
    status := SessionStatus.starting, isPrivate := opts.isPrivate,
    maxPlayers := opts.maxPlayers, currentPlayers := 0, spectatorCount := 0,
    endedAt := none }

/-- The creator's participant row the create handler inserts: role PLAYER,
isHost true. -/
def hostParticipantRow (newSid uid t : Nat) : Participant :=
  { sessionId := newSid, userId := uid, role := Role.player, isHost := true,
    joinedAt := t, leftAt := none, totalDurationMinutes := 0 }

/-- POST /api/sessions.  400 when the creator already owns a starting or
active session; then generateSessionCode is called exactly once (the two
occurrences of generateSessionCode rand below denote that single draw); if
the code collides with an existing one the transactional create violates
the session_code unique index, the transaction rolls back and the catch
answers 500 "Failed to create session"; otherwise the session row and the
creator's host participant row are inserted and the session is then updated
to ACTIVE.  newSid is the id the store assigns to the new row.  The game
play-count increment and the Redis publish touch no modelled state. -/
def createSession (st : St) (gid uid : Nat) (opts : CreateOpts) (rand : Nat → Nat)
    (newSid t : Nat) : St × Except ApiErr (List Ev) :=
  if hasOwnedActive st uid then
    (st, Except.error errAlreadyActive)
  else if sessionCodeTaken st (generateSessionCode rand) then
    (st, Except.error errFailedToCreate)
  else
    (updateSession
      { st with
          sessions := st.sessions ++
            [newSessionRow gid uid (generateSessionCode rand) opts newSid]
          participants := st.participants ++ [hostParticipantRow newSid uid t] }
      newSid (fun s => { s with status := SessionStatus.active }),
     Except.ok [Ev.session_created newSid])

/-- Socket handler "send_message".  socketUserId is the user id the
"authenticate" handler bound to the socket, none when the socket never
authenticated.  With no user id the handler returns at once: nothing is
persisted, nothing is broadcast, and no error is sent to the sender.
Otherwise the message is appended to session_chat and new_message is
broadcast to the session group. -/
def sendMessage (st : St) (socketUserId : Option Nat) (sid : Nat) (msg : String)
    (ty : MessageType) (t : Nat) : St × List Ev :=
  match socketUserId with
  | none => (st, [])
  | some uid =>
    ({ st with chat := st.chat ++
        [{ sessionId := sid, userId := uid, message := msg, msgType := ty, createdAt := t }] },
     [Ev.new_message sid uid msg])

/-- Join codes of distinct sessions are pairwise distinct (null codes exempt). -/
def codesDistinct (st : St) : Prop :=
  List.Pairwise (fun a b => ∀ c : String,
    a.sessionCode = some c → b.sessionCode ≠ some c) st.sessions

/- Concrete fixtures used by witnesses and counterexamples. -/

/-- A constant random stream; generateSessionCode on it yields "AAAAAA". -/
def rngZero : Nat → Nat := fun _ => 0

/-- A stream whose first six draws index 'A' and later draws index 'B'. -/
def rngAB : Nat → Nat := fun i => if i < 6 then 0 else 1

/-- The draws rngAB would supply to a second call of generateSessionCode. -/
def rngShift6 : Nat → Nat := fun i => rngAB (i + 6)

/-- An active two-player session with id 1, code "AAAAAA", created by user 10. -/
def sessA : Session :=
  { id := 1, gameId := 5, createdBy := 10, sessionCode := some "AAAAAA",
    status := SessionStatus.active, isPrivate := false, maxPlayers := 2,
    currentPlayers := 0, spectatorCount := 0, endedAt := none }

/-- The host participant row of sessA. -/
def hostRowA : Participant :=
  { sessionId := 1, userId := 10, role := Role.player, isHost := true,
    joinedAt := 0, leftAt := none, totalDurationMinutes := 0 }

/-- A currently-present player row for user 20 in session 1. -/
def presentRow20 : Participant :=
  { sessionId := 1, userId := 20, role := Role.player, isHost := false,
    joinedAt := 10, leftAt := none, totalDurationMinutes := 0 }

/-- A player row for user 20 in session 1 who left at time 50. -/
def leftRow20 : Participant :=
  { sessionId := 1, userId := 20, role := Role.player, isHost := false,
    joinedAt := 10, leftAt := some 50, totalDurationMinutes := 0 }

/-- Store holding only sessA with its host row. -/
def stA : St := { sessions := [sessA], participants := [hostRowA], chat := [], history := [] }

/-- Store holding sessA with host and currently-present user 20. -/
def stA2 : St :=
  { sessions := [sessA], participants := [hostRowA, presentRow20], chat := [], history := [] }

/-- Store holding sessA with host and a left row for user 20. -/
def stLeft : St :=
  { sessions := [sessA], participants := [hostRowA, leftRow20], chat := [], history := [] }

/-- Session 1 already ended. -/
def sessEnded : Session := { sessA with status := SessionStatus.ended, endedAt := some 90 }

/-- Store holding only the ended session 1 with its host row. -/
def stEnded : St :=
  { sessions := [sessEnded], participants := [hostRowA], chat := [], history := [] }

/-- The empty store. -/
def stEmpty : St := { sessions := [], participants := [], chat := [], history := [] }

/-- Claim C10: a send_message realtime event from a connection whose socket
has no authenticated user id is silently ignored: no chat row is persisted,
no new_message event is broadcast, and the sender receives no error. -/
theorem C10_confirmed (st : St) (sid : Nat) (msg : String) (ty : MessageType) (t : Nat) :
    sendMessage st none sid msg ty t = (st, []) := rfl

/-- Claim C9: endSession invoked by a requester who is not the creator fails
with 403 "Only the host can end the session" and returns the store unchanged:
no status transition and no participant finalization happens. -/
theorem C9_confirmed (st : St) (sid uid t : Nat) (sess : Session)
    (hfind : findSession st sid = some sess) (hhost : sess.createdBy ≠ uid) :
    endSession st sid uid t = (st, Except.error errOnlyHost) := by
  unfold endSession
  rw [hfind]
  simp [hhost]

/-- Witness for C9: user 20 attempts to end session 1 created by user 10. -/
theorem C9_witness : endSession stA 1 20 99 = (stA, Except.error errOnlyHost) :=
  C9_confirmed stA 1 20 99 sessA rfl (by decide)

/-- Claim C1 is a code bug: after one successful player join into the
active session stA (host present, maxPlayers 2), the current_players
column still holds its default 0 while two player rows with left_at null
exist, so the counter neither got incremented nor equals the live player
count the claim demands. -/
theorem C1_code_bug_eval :
    exceptIsOk (joinSession stA 1 20 Role.player 50).2 = true ∧
    (findSession (joinSession stA 1 20 Role.player 50).1 1).map Session.currentPlayers =
      some 0 ∧
    playerPresentCount (joinSession stA 1 20 Role.player 50).1 1 = 2 := by
  decide

/-- Claim C8 is a code bug: user 20 previously left session 1 (row with
left_at 50); a fresh join on the active, non-full session does not
reactivate the row — the handler's create violates the composite primary
key and the request fails with 500, leaving the store unchanged. -/
theorem C8_code_bug_eval :
    (joinSession stLeft 1 20 Role.player 60).2 = Except.error errFailedToJoin ∧
    (joinSession stLeft 1 20 Role.player 60).1 = stLeft := by
  decide

/-- Counterexample to claim C2: a second endSession by the host on the
already-ended session succeeds again with session_ended instead of
failing with a NotActive error. -/
theorem C2_counterexample :
    (endSession (endSession stA 1 10 100).1 1 10 200).2 = Except.ok [Ev.session_ended] := by
  decide

/-- Counterexample to claim C3: joining the existing but ended session 1
and joining the absent session 99 answer the identical combined error,
so no distinct NotActive error exists. -/
theorem C3_counterexample :
    (joinSession stEnded 1 20 Role.player 100).2 =
      Except.error errJoinNotFoundOrNotActive ∧
    (joinSession stEnded 99 20 Role.player 100).2 =
      Except.error errJoinNotFoundOrNotActive := by
  decide

/-- Counterexample to claim C4: a successful endSession writes no
session_history row (the table stays empty) and updates no participant
duration (user 20 joined at 10, the session ends at 100, the accumulated
duration stays 0). -/
theorem C4_counterexample :
    exceptIsOk (endSession stA2 1 10 100).2 = true ∧
    (endSession stA2 1 10 100).1.history = [] ∧
    durations (endSession stA2 1 10 100).1 = durations stA2 := by
  decide

/-- Counterexample to claim C5: with "AAAAAA" already taken by another
user's session and a random stream whose first draw collides ("AAAAAA")
while its next six draws would yield the fresh code "BBBBBB", creation
fails at once with 500 — no retry with fresh random codes happens. -/
theorem C5_counterexample :
    createSession stA 5 20 {} rngAB 2 100 = (stA, Except.error errFailedToCreate) ∧
    generateSessionCode rngShift6 = "BBBBBB" := by
  decide

/-- Counterexample to claim C6: the alphabet of generateSessionCode holds
31 symbols, not the 32 the claim states. -/
theorem C6_counterexample :
    sessionCodeChars.length = 31 ∧ ¬ sessionCodeChars.length = 32 := by
  decide

/-- Counterexample to claim C7: user 20 leaves session 1 twice; the second
leave succeeds again (re-setting left_at to 60) instead of returning
NotFound. -/
theorem C7_counterexample :
    (leaveSession (leaveSession stA2 1 20 50).1 1 20 60).2 = Except.ok [Ev.user_left 20] ∧
    (findParticipant (leaveSession (leaveSession stA2 1 20 50).1 1 20 60).1 1 20).map
      Participant.leftAt = some (some 60) := by
  decide

/-
  Generic list lemmas used by the general theorems below.
-/

/-- find? commutes with a map whose function preserves the key predicate. -/
theorem find_map_of_key {α : Type} (key : α → Bool) (g : α → α)
    (hg : ∀ a, key (g a) = key a) :
    ∀ l : List α, (l.map g).find? key = (l.find? key).map g := by
  intro l
  induction l with
  | nil => rfl
  | cons a l ih =>
    by_cases h : key a = true
    · rw [List.map_cons, List.find?_cons_of_pos _ (by rw [hg]; exact h),
        List.find?_cons_of_pos _ h]
      rfl
    · rw [List.map_cons, List.find?_cons_of_neg _ (by rw [hg]; exact h),
        List.find?_cons_of_neg _ h, ih]

/-- find? over an appended singleton when the prefix has no match. -/
theorem find_append_singleton {α : Type} (key : α → Bool) (x : α) :
    ∀ l : List α, l.find? key = none →
      (l ++ [x]).find? key = (if key x then some x else none) := by
  intro l
  induction l with
  | nil =>
    intro _
    by_cases hx : key x = true
    · rw [List.nil_append, List.find?_cons_of_pos _ hx, if_pos hx]
    · rw [List.nil_append, List.find?_cons_of_neg _ hx, if_neg hx]
      rfl
  | cons a l ih =>
    intro h
    have ha : ¬ key a = true := by
      intro hka
      rw [List.find?_cons_of_pos _ hka] at h
      cases h
    rw [List.find?_cons_of_neg _ ha] at h
    rw [List.cons_append, List.find?_cons_of_neg _ ha]
    exact ih h

/-- An element fetched by getD at an in-range index is a member. -/
theorem getD_mem_of_lt {α : Type} (l : List α) (n : Nat) (d : α) (h : n < l.length) :
    l.getD n d ∈ l := by
  rw [List.getD_eq_getElem l d h]
  exact List.getElem_mem h

/-
  Characterization lemmas for the store operations.
-/

/-- updateSession with an id-preserving row function commutes with findSession. -/
theorem findSession_updateSession (st : St) (sid sid' : Nat) (f : Session → Session)
    (hf : ∀ s, (f s).id = s.id) :
    findSession (updateSession st sid' f) sid =
      (findSession st sid).map (fun s => if s.id == sid' then f s else s) := by
  unfold findSession updateSession
  exact find_map_of_key _ _ (fun a => by by_cases h : a.id == sid' <;> simp [h, hf]) _

/-- endSessionFinalizeParticipants leaves the sessions table untouched. -/
theorem findSession_finalize (st : St) (sid sid' t : Nat) :
    findSession (endSessionFinalizeParticipants st sid' t) sid = findSession st sid := rfl

/-- A successful endSession presupposes an existing session whose creator is
the requester, and then performs exactly the three store writes. -/
theorem endSession_ok_elim (st : St) (sid uid t : Nat)
    (h : exceptIsOk (endSession st sid uid t).2 = true) :
    ∃ sess, findSession st sid = some sess ∧ sess.createdBy = uid ∧
      endSession st sid uid t =
        (endSessionMarkEnded
          (endSessionFinalizeParticipants (endSessionMarkEnding st sid t) sid t) sid,
         Except.ok [Ev.session_ended]) := by
  unfold endSession at h ⊢
  split at h
  · simp [exceptIsOk] at h
  · next sess hfind =>
    rw [hfind]
    by_cases hhost : sess.createdBy ≠ uid
    · rw [if_pos hhost] at h
      simp [exceptIsOk] at h
    · rw [if_neg hhost]
      exact ⟨sess, rfl, not_ne_iff.mp hhost, rfl⟩

/-- endSession on an existing session whose creator is the requester runs
the three store writes and reports success. -/
theorem endSession_ok_intro (st : St) (sid uid t : Nat) (sess : Session)
    (hfind : findSession st sid = some sess) (hhost : sess.createdBy = uid) :
    endSession st sid uid t =
      (endSessionMarkEnded
        (endSessionFinalizeParticipants (endSessionMarkEnding st sid t) sid t) sid,
       Except.ok [Ev.session_ended]) := by
  unfold endSession
  rw [hfind]
  simp [hhost]

/-- The row the sessions table holds after the first write of endSession. -/
theorem findSession_markEnding (st : St) (sid t : Nat) (sess : Session)
    (hfind : findSession st sid = some sess) :
    findSession (endSessionMarkEnding st sid t) sid =
      some { sess with status := SessionStatus.ending, endedAt := some t } := by
  have h2 := findSession_updateSession st sid sid
    (fun s => { s with status := SessionStatus.ending, endedAt := some t }) (fun s => rfl)
  have hid : (sess.id == sid) = true := by
    have := List.find?_some hfind
    simpa [findSession] using this
  have hid' : sess.id = sid := by simpa using hid
  unfold endSessionMarkEnding
  rw [h2, hfind]
  simp [hid, hid']

/-- The row the sessions table holds after a successful endSession. -/
theorem findSession_after_endSession (st : St) (sid t : Nat) (sess : Session)
    (hfind : findSession st sid = some sess) :
    findSession
      (endSessionMarkEnded
        (endSessionFinalizeParticipants (endSessionMarkEnding st sid t) sid t) sid) sid =
      some { sess with status := SessionStatus.ended, endedAt := some t } := by
  have hid : sess.id == sid := by
    have := List.find?_some hfind
    simpa [findSession] using this
  have h1 := findSession_updateSession
      (endSessionFinalizeParticipants (endSessionMarkEnding st sid t) sid t) sid sid
      (fun s => { s with status := SessionStatus.ended }) (fun s => rfl)
  have h2 := findSession_updateSession st sid sid
      (fun s => { s with status := SessionStatus.ending, endedAt := some t }) (fun s => rfl)
  unfold endSessionMarkEnded endSessionMarkEnding
  unfold endSessionMarkEnding at h1
  rw [h1, findSession_finalize, h2, hfind]
  have hid' : sess.id = sid := by simpa using hid
  simp [hid, hid']

/-- Durations after the participant finalization of endSession. -/
theorem durations_finalize (st : St) (sid t : Nat) :
    durations (endSessionFinalizeParticipants st sid t) = durations st := by
  unfold durations endSessionFinalizeParticipants
  simp only [List.map_map]
  apply List.map_congr_left
  intro p _
  simp only [Function.comp_apply]
  split <;> rfl

/-- Durations survive a whole successful endSession run. -/
theorem durations_endSession_run (st : St) (sid t : Nat) :
    durations
      (endSessionMarkEnded
        (endSessionFinalizeParticipants (endSessionMarkEnding st sid t) sid t) sid) =
      durations st := by
  have h1 : durations
      (endSessionMarkEnded
        (endSessionFinalizeParticipants (endSessionMarkEnding st sid t) sid t) sid) =
      durations (endSessionFinalizeParticipants (endSessionMarkEnding st sid t) sid t) := rfl
  rw [h1, durations_finalize]
  rfl

/-- Claim C2, amended to what the code does: endSession performs no status
check, so a second endSession by the host on the already-ended session
succeeds again (re-running the ENDING/ENDED writes) instead of failing with
NotActive; no participant duration is accumulated on either call, so none is
double-accounted; a joinSession on the ended session is rejected, with the
combined 404 not-found-or-not-active error; and a leaveSession on the ended
session is not rejected at all — whenever a participant row for the pair
exists (as it does for everyone finalized by the end), it succeeds again. -/
theorem C2_amended (st : St) (sid uid t tt : Nat)
    (h : exceptIsOk (endSession st sid uid t).2 = true) :
    exceptIsOk ((endSession (endSession st sid uid t).1 sid uid tt).2) = true ∧
    durations ((endSession (endSession st sid uid t).1 sid uid tt).1) = durations st ∧
    (∀ uid2 role t2, (joinSession (endSession st sid uid t).1 sid uid2 role t2).2 =
      Except.error errJoinNotFoundOrNotActive) ∧
    (∀ p uid2 t2, findParticipant (endSession st sid uid t).1 sid uid2 = some p →
      (leaveSession (endSession st sid uid t).1 sid uid2 t2).2 =
        Except.ok [Ev.user_left uid2]) := by
  obtain ⟨sess, hfind, hhost, hrun⟩ := endSession_ok_elim st sid uid t h
  have hfind1 : findSession (endSession st sid uid t).1 sid =
      some { sess with status := SessionStatus.ended, endedAt := some t } := by
    rw [hrun]
    exact findSession_after_endSession st sid t sess hfind
  have hrun2 := endSession_ok_intro (endSession st sid uid t).1 sid uid tt
    { sess with status := SessionStatus.ended, endedAt := some t } hfind1 hhost
  refine ⟨?_, ?_, ?_, ?_⟩
  · rw [hrun2]
    rfl
  · rw [hrun2, durations_endSession_run, hrun]
    exact durations_endSession_run st sid t
  · intro uid2 role t2
    unfold joinSession
    rw [hfind1]
    simp
  · intro p uid2 t2 hp
    unfold leaveSession
    rw [hp]

/-- Witness for C2: ending session 1 twice as host 10; the second call
succeeds, durations stay untouched, a later join by user 20 gets the
combined 404 error, and a later leave by user 10 (whose row the end
finalized) still succeeds on the ended session. -/
theorem C2_witness :
    exceptIsOk ((endSession (endSession stA 1 10 100).1 1 10 200).2) = true ∧
    durations ((endSession (endSession stA 1 10 100).1 1 10 200).1) = durations stA ∧
    (joinSession (endSession stA 1 10 100).1 1 20 Role.player 300).2 =
      Except.error errJoinNotFoundOrNotActive ∧
    (leaveSession (endSession stA 1 10 100).1 1 10 300).2 =
      Except.ok [Ev.user_left 10] := by
  have h := C2_amended stA 1 10 100 200 (by decide)
  exact ⟨h.1, h.2.1, h.2.2.1 20 Role.player 300,
    h.2.2.2 { hostRowA with leftAt := some 100 } 10 300 (by decide)⟩

/-- Claim C4, amended to what the code does: a successful endSession drives
the status through ENDING (with endedAt set) to ENDED, and every participant
row of the session with left_at null gets left_at set to the end time while
keeping its accumulated duration unchanged; but no duration is updated and
no SessionHistory row is ever written — the history table is exactly what it
was before. -/
theorem C4_amended (st : St) (sid uid t : Nat)
    (h : exceptIsOk (endSession st sid uid t).2 = true) :
    (findSession (endSessionMarkEnding st sid t) sid).map Session.status =
      some SessionStatus.ending ∧
    (findSession (endSession st sid uid t).1 sid).map Session.status =
      some SessionStatus.ended ∧
    (∀ p ∈ st.participants, p.sessionId = sid → p.leftAt = none →
      ({ p with leftAt := some t } : Participant) ∈ (endSession st sid uid t).1.participants) ∧
    durations (endSession st sid uid t).1 = durations st ∧
    (endSession st sid uid t).1.history = st.history := by
  obtain ⟨sess, hfind, hhost, hrun⟩ := endSession_ok_elim st sid uid t h
  have hmark := findSession_markEnding st sid t sess hfind
  refine ⟨?_, ?_, ?_, ?_, ?_⟩
  · rw [hmark]
    rfl
  · rw [hrun, findSession_after_endSession st sid t sess hfind]
    rfl
  · intro p hp hsid hleft
    rw [hrun]
    have hp1 : p ∈ (endSessionMarkEnding st sid t).participants := hp
    have hmem : ({ p with leftAt := some t } : Participant) ∈
        (endSessionFinalizeParticipants (endSessionMarkEnding st sid t) sid t).participants := by
      unfold endSessionFinalizeParticipants
      have := List.mem_map_of_mem (fun q : Participant =>
        if q.sessionId == sid && q.leftAt == none then { q with leftAt := some t } else q) hp1
      simpa [hsid, hleft] using this
    exact hmem
  · rw [hrun]
    exact durations_endSession_run st sid t
  · rw [hrun]
    rfl

/-- Witness for C4: host 10 ends session 1 with user 20 present; status
passes through ENDING to ENDED, user 20's row becomes left with duration
still 0, durations are untouched and the history table stays empty. -/
theorem C4_witness :
    (findSession (endSessionMarkEnding stA2 1 100) 1).map Session.status =
      some SessionStatus.ending ∧
    (findSession (endSession stA2 1 10 100).1 1).map Session.status =
      some SessionStatus.ended ∧
    ({ presentRow20 with leftAt := some 100 } : Participant) ∈
      (endSession stA2 1 10 100).1.participants ∧
    durations (endSession stA2 1 10 100).1 = durations stA2 ∧
    (endSession stA2 1 10 100).1.history = stA2.history := by
  have h := C4_amended stA2 1 10 100 (by decide)
  exact ⟨h.1, h.2.1, h.2.2.1 presentRow20 (by decide) rfl rfl, h.2.2.2.1, h.2.2.2.2⟩

/-- joinSession on an active, non-full-for-this-role session with no
participant row for the pair inserts the fresh row and reports success. -/
theorem joinSession_ok_intro (st : St) (sid uid : Nat) (role : Role) (t : Nat) (sess : Session)
    (hfind : findSession st sid = some sess) (hstat : sess.status = SessionStatus.active)
    (hfull : ¬(sess.maxPlayers ≤ sess.currentPlayers ∧ role = Role.player))
    (hpart : findParticipant st sid uid = none) :
    joinSession st sid uid role t =
      ({ st with participants := st.participants ++ [joinRow sid uid role t] },
       Except.ok [Ev.user_joined uid role]) := by
  unfold joinSession
  rw [hfind, hpart]
  simp [hstat, hfull]

/-- A successful joinSession presupposes an active session, a passed
capacity check and no existing participant row, and then performs exactly
the row insert. -/
theorem joinSession_ok_elim (st : St) (sid uid : Nat) (role : Role) (t : Nat)
    (h : exceptIsOk (joinSession st sid uid role t).2 = true) :
    ∃ sess, findSession st sid = some sess ∧ sess.status = SessionStatus.active ∧
      ¬(sess.maxPlayers ≤ sess.currentPlayers ∧ role = Role.player) ∧
      findParticipant st sid uid = none ∧
      joinSession st sid uid role t =
        ({ st with participants := st.participants ++ [joinRow sid uid role t] },
         Except.ok [Ev.user_joined uid role]) := by
  unfold joinSession at h
  split at h
  · simp [exceptIsOk] at h
  · next sess hfind =>
    split at h
    · simp [exceptIsOk] at h
    · next hstat =>
      split at h
      · simp [exceptIsOk] at h
      · next hfull =>
        split at h
        · split at h
          · simp [exceptIsOk] at h
          · simp [exceptIsOk] at h
        · next hpart =>
          have hstat' : sess.status = SessionStatus.active := not_ne_iff.mp hstat
          exact ⟨sess, hfind, hstat', hfull, hpart,
            joinSession_ok_intro st sid uid role t sess hfind hstat' hfull hpart⟩

/-- Claim C3, amended to what the code does: joinSession answers one
combined error — 404 "Session not found or not active" — both when the
session is absent and when its status is not ACTIVE (no distinct NotActive
error exists); it answers 400 "Session is full" when role is player and
the stored current player count is at or above max players, and 400
"Already in this session" when a participant row with left_at null exists
for the pair; and a user whose join succeeded and who joins again with the
same role receives "Already in this session". -/
theorem C3_amended (st : St) (sid uid : Nat) (role : Role) (t tt : Nat) :
    (findSession st sid = none →
      (joinSession st sid uid role t).2 = Except.error errJoinNotFoundOrNotActive) ∧
    (∀ sess, findSession st sid = some sess → sess.status ≠ SessionStatus.active →
      (joinSession st sid uid role t).2 = Except.error errJoinNotFoundOrNotActive) ∧
    (∀ sess, findSession st sid = some sess → sess.status = SessionStatus.active →
      sess.maxPlayers ≤ sess.currentPlayers → role = Role.player →
      (joinSession st sid uid role t).2 = Except.error errSessionFull) ∧
    (∀ sess p, findSession st sid = some sess → sess.status = SessionStatus.active →
      ¬(sess.maxPlayers ≤ sess.currentPlayers ∧ role = Role.player) →
      findParticipant st sid uid = some p → p.leftAt = none →
      (joinSession st sid uid role t).2 = Except.error errAlreadyInSession) ∧
    (exceptIsOk (joinSession st sid uid role t).2 = true →
      (joinSession (joinSession st sid uid role t).1 sid uid role tt).2 =
        Except.error errAlreadyInSession) := by
  refine ⟨?_, ?_, ?_, ?_, ?_⟩
  · intro hfind
    unfold joinSession
    rw [hfind]
  · intro sess hfind hstat
    unfold joinSession
    rw [hfind]
    simp [hstat]
  · intro sess hfind hstat hfull hrole
    unfold joinSession
    rw [hfind]
    simp [hstat, hfull, hrole]
  · intro sess p hfind hstat hfull hpart hleft
    unfold joinSession
    rw [hfind, hpart]
    simp [hstat, hfull, hleft]
  · intro h
    obtain ⟨sess, hfind, hstat, hfull, hpart, hrun⟩ := joinSession_ok_elim st sid uid role t h
    have hfind1 : findSession (joinSession st sid uid role t).1 sid = some sess := by
      rw [hrun]
      exact hfind
    have hpart0 : st.participants.find?
        (fun p => p.sessionId == sid && p.userId == uid) = none := hpart
    have hpart1 : findParticipant (joinSession st sid uid role t).1 sid uid =
        some (joinRow sid uid role t) := by
      rw [hrun]
      show (st.participants ++ [joinRow sid uid role t]).find?
        (fun p => p.sessionId == sid && p.userId == uid) = some (joinRow sid uid role t)
      rw [find_append_singleton _ _ _ hpart0]
      simp [joinRow]
    generalize hG : (joinSession st sid uid role t).1 = stJ at hfind1 hpart1
    unfold joinSession
    rw [hfind1, hpart1]
    simp [hstat, hfull, joinRow]

/-- Witness for C3: joining the absent session 99 of stA yields the
combined 404 error, and user 20 joining session 1 twice as player receives
"Already in this session" on the second call. -/
theorem C3_witness :
    (joinSession stA 99 20 Role.player 5).2 = Except.error errJoinNotFoundOrNotActive ∧
    (joinSession (joinSession stA 1 20 Role.player 5).1 1 20 Role.player 6).2 =
      Except.error errAlreadyInSession := by
  refine ⟨(C3_amended stA 99 20 Role.player 5 6).1 rfl, ?_⟩
  exact (C3_amended stA 1 20 Role.player 5 6).2.2.2.2 (by decide)

/-- Claim C5, amended to what the code does: createSession draws a single
join code and never retries — when the drawn code collides with one an
existing session holds, the insert fails on the session_code unique index
and the request fails with 500 "Failed to create session"; join-code
uniqueness across sessions is enforced solely by that constraint, so
whenever all existing codes are pairwise distinct they remain pairwise
distinct after any createSession. -/
theorem C5_amended (st : St) (gid uid newSid t : Nat) (opts : CreateOpts) (rand : Nat → Nat)
    (hdist : codesDistinct st) :
    codesDistinct (createSession st gid uid opts rand newSid t).1 ∧
    (hasOwnedActive st uid = false →
      sessionCodeTaken st (generateSessionCode rand) = true →
      createSession st gid uid opts rand newSid t = (st, Except.error errFailedToCreate)) := by
  constructor
  · by_cases hOwn : hasOwnedActive st uid = true
    · unfold createSession
      rw [if_pos hOwn]
      exact hdist
    · by_cases hTaken : sessionCodeTaken st (generateSessionCode rand) = true
      · unfold createSession
        rw [if_neg hOwn, if_pos hTaken]
        exact hdist
      · unfold createSession
        rw [if_neg hOwn, if_neg hTaken]
        have hTaken' : sessionCodeTaken st (generateSessionCode rand) = false := by
          simpa using hTaken
        have hfree : ∀ s ∈ st.sessions,
            s.sessionCode ≠ some (generateSessionCode rand) := by
          simpa [sessionCodeTaken] using hTaken'
        have hP : List.Pairwise (fun a b : Session => ∀ c : String,
            a.sessionCode = some c → b.sessionCode ≠ some c)
            (st.sessions ++ [newSessionRow gid uid (generateSessionCode rand) opts newSid]) := by
          rw [List.pairwise_append]
          refine ⟨hdist, List.pairwise_singleton _ _, ?_⟩
          intro a ha b hb c hac
          rw [List.mem_singleton] at hb
          subst hb
          show some (generateSessionCode rand) ≠ some c
          intro hcc
          have hcode : c = generateSessionCode rand := (Option.some.inj hcc).symm
          subst hcode
          exact hfree a ha hac
        show List.Pairwise (fun a b : Session => ∀ c : String,
            a.sessionCode = some c → b.sessionCode ≠ some c)
          ((st.sessions ++ [newSessionRow gid uid (generateSessionCode rand) opts newSid]).map
            (fun s => if s.id == newSid then { s with status := SessionStatus.active } else s))
        rw [List.pairwise_map]
        refine hP.imp ?_
        intro a b hr c hc
        have hca : ∀ s : Session,
            (if s.id == newSid then ({ s with status := SessionStatus.active } : Session)
              else s).sessionCode = s.sessionCode := by
          intro s
          split <;> rfl
        show (if b.id == newSid then ({ b with status := SessionStatus.active } : Session)
          else b).sessionCode ≠ some c
        rw [hca b]
        have hc' : (if a.id == newSid then ({ a with status := SessionStatus.active } : Session)
            else a).sessionCode = some c := hc
        rw [hca a] at hc'
        exact hr c hc'
  · intro hOwn hTaken
    unfold createSession
    rw [if_neg (by simp [hOwn]), if_pos hTaken]

/-- Witness for C5: with "AAAAAA" taken in stA and the constant random
stream drawing "AAAAAA", user 20's creation fails with 500 and the codes
of the (unchanged) store stay pairwise distinct. -/
theorem C5_witness :
    codesDistinct (createSession stA 5 20 {} rngZero 2 100).1 ∧
    createSession stA 5 20 {} rngZero 2 100 = (stA, Except.error errFailedToCreate) := by
  have h := C5_amended stA 5 20 2 100 {} rngZero (by simp [codesDistinct, stA])
  exact ⟨h.1, h.2 (by decide) (by decide)⟩

/-- Claim C6, amended to what the code does: every generated join code is
exactly 6 characters, each drawn from the fixed 31-symbol alphabet
ABCDEFGHJKMNPQRSTUVWXYZ23456789, which excludes the ambiguous characters
0, O, 1, I and L (the spec's count of 32 symbols is off by one). -/
theorem C6_amended (rand : Nat → Nat) :
    (generateSessionCode rand).length = 6 ∧
    (∀ c ∈ (generateSessionCode rand).toList, c ∈ sessionCodeChars.toList) ∧
    ('0' ∉ sessionCodeChars.toList ∧ 'O' ∉ sessionCodeChars.toList ∧
     '1' ∉ sessionCodeChars.toList ∧ 'I' ∉ sessionCodeChars.toList ∧
     'L' ∉ sessionCodeChars.toList) := by
  refine ⟨rfl, ?_, by decide⟩
  intro c hc
  have hc2 : c ∈ (List.range 6).map (fun i =>
      sessionCodeChars.toList.getD (rand i % sessionCodeChars.toList.length) 'A') := hc
  obtain ⟨i, _, hic⟩ := List.mem_map.mp hc2
  rw [← hic]
  exact getD_mem_of_lt _ _ _ (Nat.mod_lt _ (by decide))

/-- Witness for C6: the code drawn from the constant stream has length 6
and the character 0 is indeed outside the alphabet. -/
theorem C6_witness :
    (generateSessionCode rngZero).length = 6 ∧ '0' ∉ sessionCodeChars.toList :=
  ⟨(C6_amended rngZero).1, (C6_amended rngZero).2.2.1⟩

/-- The left_at update of leaveSession preserves the composite-key
predicate of every row. -/
theorem leave_upd_key (sid uid t : Nat) (q : Participant) :
    ((if q.sessionId == sid && q.userId == uid
        then ({ q with leftAt := some t } : Participant) else q).sessionId == sid &&
     (if q.sessionId == sid && q.userId == uid
        then ({ q with leftAt := some t } : Participant) else q).userId == uid) =
    (q.sessionId == sid && q.userId == uid) := by
  split <;> rfl

/-- Claim C7, amended to what the code does: leaveSession fails — with the
500 "Failed to leave session" of the thrown participant update, not with a
NotFound — exactly when no participant row at all exists for the
(session, user) pair; whenever a row exists, currently present or already
left, the handler sets left_at to the current time and succeeds, leaving
the sessions table (hence both counters) and every accumulated duration
unchanged; a second leave therefore succeeds again instead of returning
NotFound. -/
theorem C7_amended (st : St) (sid uid t : Nat) :
    (findParticipant st sid uid = none →
      leaveSession st sid uid t = (st, Except.error errFailedToLeave)) ∧
    (∀ p, findParticipant st sid uid = some p →
      (leaveSession st sid uid t).2 = Except.ok [Ev.user_left uid] ∧
      findParticipant (leaveSession st sid uid t).1 sid uid =
        some { p with leftAt := some t } ∧
      (leaveSession st sid uid t).1.sessions = st.sessions ∧
      durations (leaveSession st sid uid t).1 = durations st) := by
  constructor
  · intro hp
    unfold leaveSession
    rw [hp]
  · intro p hp
    have hp0 : st.participants.find?
        (fun q => q.sessionId == sid && q.userId == uid) = some p := hp
    have hkp : (p.sessionId == sid && p.userId == uid) = true := by
      simpa using List.find?_some hp0
    have hrun : leaveSession st sid uid t =
        ({ st with participants := st.participants.map (fun q =>
            if q.sessionId == sid && q.userId == uid then { q with leftAt := some t }
            else q) },
         Except.ok [Ev.user_left uid]) := by
      unfold leaveSession
      rw [hp]
    have hmap := find_map_of_key
      (fun q : Participant => q.sessionId == sid && q.userId == uid)
      (fun q : Participant => if q.sessionId == sid && q.userId == uid
        then { q with leftAt := some t } else q)
      (fun q => leave_upd_key sid uid t q)
      st.participants
    refine ⟨by rw [hrun], ?_, by rw [hrun], ?_⟩
    · rw [hrun]
      show (st.participants.map (fun q =>
          if q.sessionId == sid && q.userId == uid then { q with leftAt := some t }
          else q)).find? (fun q => q.sessionId == sid && q.userId == uid) =
        some { p with leftAt := some t }
      rw [hmap, hp0]
      show some (if p.sessionId == sid && p.userId == uid
        then ({ p with leftAt := some t } : Participant) else p) =
        some { p with leftAt := some t }
      rw [if_pos hkp]
    · rw [hrun]
      show (st.participants.map (fun q =>
          if q.sessionId == sid && q.userId == uid then { q with leftAt := some t }
          else q)).map (fun p => p.totalDurationMinutes) =
        st.participants.map (fun p => p.totalDurationMinutes)
      rw [List.map_map]
      apply List.map_congr_left
      intro q _
      simp only [Function.comp_apply]
      split <;> rfl

/-- Witness for C7: leaving session 1 with no row at all fails with the
500, while user 20 with a present row leaves successfully. -/
theorem C7_witness :
    leaveSession stEmpty 1 20 5 = (stEmpty, Except.error errFailedToLeave) ∧
    (leaveSession stA2 1 20 5).2 = Except.ok [Ev.user_left 20] := by
  refine ⟨(C7_amended stEmpty 1 20 5).1 rfl, ?_⟩
  exact ((C7_amended stA2 1 20 5).2 presentRow20 (by decide)).1

end Platium
